import Mathlib

/-!
Verification of the file-or-message submission and link-lifecycle workflow
of the file_transfer single-page application.

The client components (`FileUpload.tsx`, `FileList.tsx`, `Dashboard.tsx`,
and the unnamed dashboard variant) call an external backend (a record
store, a blob store, and an identity provider).  We embed each workflow as
an executable Lean function over an explicit backend state, with the
outcomes of the individual backend calls supplied by an explicit
environment record (one Boolean per fallible call, exactly the calls whose
error results the source destructures).  Every workflow also returns the
list of backend operations it issued, so that ordering and absence of
operations ("no side effects", "attempts the blob delete first",
"verifies existence by path lookup") are stated directly on the trace.
-/

namespace FileTransfer

/-- Code points treated as whitespace by JavaScript `String.prototype.trim`
(WhiteSpace and LineTerminator productions). -/
def jsWhitespaceCodes : List Nat :=
  [9, 10, 11, 12, 13, 32, 160, 5760, 8192, 8193, 8194, 8195, 8196, 8197,
   8198, 8199, 8200, 8201, 8202, 8232, 8233, 8239, 8287, 12288, 65279]

/-- Whether a character is JavaScript whitespace. -/
def isJsSpace (c : Char) : Bool := jsWhitespaceCodes.contains c.toNat

/-- JavaScript `String.prototype.trim`: remove leading and trailing
whitespace. -/
def jsTrim (s : String) : String :=
  String.mk (((s.data.dropWhile isJsSpace).reverse.dropWhile isJsSpace).reverse)

/-- Metadata of a selected file as the client sees it (`File`):
its display name and byte size. -/
structure FileMeta where
  name : String
  size : Nat
deriving DecidableEq

/-- The authenticated principal returned by `supabase.auth.getUser()`. -/
structure Principal where
  id : String
  email : String
deriving DecidableEq

/-- A row of the `files` table (see the SQL in `part_000` and the
`20240320000000_update_files_table.sql` migration).  `path` is nullable
(message-only entries); `expiry_date` is nullable (never expires). -/
structure FileRecord where
  id : Nat
  name : String
  path : Option String
  recipient_email : String
  expiry_date : Option Nat
  user_id : String
  download_count : Nat
  view_count : Nat
  message : String
  type : String
deriving DecidableEq

/-- The durable backend state: the set of stored blob paths and the rows
of the `files` table. -/
structure BackendState where
  storage : List String
  records : List FileRecord
deriving DecidableEq

/-- A backend operation issued by a workflow, recorded in its trace. -/
inductive BackendOp where
  /-- `storage.upload(path, file)` -/
  | uploadOp (path : String)
  /-- `storage.remove([path])` -/
  | removeOp (path : String)
  /-- `from('files').insert([...])` -/
  | insertOp
  /-- `storage.list(folder, search)`: the existence lookup by path -/
  | listOp (path : String)
  /-- `storage.createSignedUrl(path, 3600)` -/
  | signOp (path : String)
  /-- `from('files').delete().eq('id', id)` -/
  | deleteRecordOp (id : Nat)
  /-- `from('files').update(...).eq('id', id)` -/
  | updateOp (id : Nat)
deriving DecidableEq

/-- Modelled from the spec: the `view_count` column's default value.  The
clients read and update `view_count`, but the `ALTER TABLE` migration that
adds the column is not under src; spec section 4.2 step 4 says the Entry
record is written with `viewCount` = 0, so the column default is 0. -/
def viewCountDefault : Nat := 0

/-- Inputs of `FileUpload.handleSubmit`: the selected file (or null), the
message text, the recipient email text and the expiry days number from the
form state. -/
structure SubmitInput where
  file : Option FileMeta
  message : String
  recipientEmail : String
  expiryDays : Nat
deriving DecidableEq

/-- The environment of one `handleSubmit` run: the authenticated user (or
null), the outcome of each fallible backend call the source destructures
(`upload`, `insert`) plus the compensating `remove` (whose result the
source discards), the collision-resistant generated file name, a fresh row
id, and the current time `Date.now()` in milliseconds. -/
structure SubmitEnv where
  user : Option Principal
  uploadFails : Bool
  insertFails : Bool
  removeFails : Bool
  generatedName : String
  freshId : Nat
  now : Nat
deriving DecidableEq

/-- The storage path chosen for an upload:
`filePath = user.id + "/" + fileName` (`FileUpload.tsx` line 155). -/
def submitPath (u : Principal) (env : SubmitEnv) : String :=
  u.id ++ "/" ++ env.generatedName

/-- The outcome surfaced by `handleSubmit`: the early validation return,
the missing-user throw, a storage (upload) error, a database (insert)
error, or the created row. -/
inductive SubmitOutcome where
  | validationError
  | authError
  | storageError
  | persistenceError
  | created (r : FileRecord)
deriving DecidableEq

/-- The row object passed to `from('files').insert` (`FileUpload.tsx`
lines 178-191).  `name` is `file?.name || 'Message Only'` (an empty file
name is falsy), `path` is `filePath || null`, `recipient_email` is
`recipientEmail || user.email`, `expiry_date` is
`expiryDays ? new Date(Date.now() + days*24*60*60*1000) : null`,
`download_count` is 0, `message` is `message.trim()`, and `type` is
`file ? 'file_and_message' : 'message_only'`.  The `view_count` column is
not named in the insert, so the row takes the column default. -/
def builtRecord (inp : SubmitInput) (u : Principal) (env : SubmitEnv)
    (fp : Option String) : FileRecord :=
  { id := env.freshId
  , name := match inp.file with
      | some f => if f.name = "" then "Message Only" else f.name
      | none => "Message Only"
  , path := fp
  , recipient_email :=
      if inp.recipientEmail = "" then u.email else inp.recipientEmail
  , expiry_date :=
      if inp.expiryDays = 0 then none
      else some (env.now + inp.expiryDays * 24 * 60 * 60 * 1000)
  , user_id := u.id
  , download_count := 0
  , view_count := viewCountDefault
  , message := jsTrim inp.message
  , type := if inp.file.isSome then "file_and_message" else "message_only" }

/-- `FileUpload.handleSubmit` (`FileUpload.tsx` lines 125-229), as a state
transformer: the guard `!file && !message.trim()` returns early with the
validation message; then the user is fetched; if a file is selected it is
uploaded to `submitPath` and an upload error aborts before the insert; the
row `builtRecord` is inserted; if the insert fails and a file path was set,
the stored blob is removed (the result of this remove is discarded by the
source) and the insert error is surfaced. -/
def handleSubmit (inp : SubmitInput) (env : SubmitEnv) (st : BackendState) :
    SubmitOutcome × BackendState × List BackendOp :=
  if inp.file = none ∧ jsTrim inp.message = "" then
    (.validationError, st, [])
  else
    match env.user with
    | none => (.authError, st, [])
    | some u =>
      match inp.file with
      | none =>
          let r := builtRecord inp u env none
          if env.insertFails then (.persistenceError, st, [.insertOp])
          else (.created r, { st with records := r :: st.records }, [.insertOp])
      | some _ =>
          let fp := submitPath u env
          if env.uploadFails then (.storageError, st, [.uploadOp fp])
          else
            let st1 : BackendState := { st with storage := fp :: st.storage }
            let r := builtRecord inp u env (some fp)
            if env.insertFails then
              if env.removeFails then
                (.persistenceError, st1, [.uploadOp fp, .insertOp, .removeOp fp])
              else
                (.persistenceError, { st1 with storage := st1.storage.erase fp },
                  [.uploadOp fp, .insertOp, .removeOp fp])
            else
              (.created r, { st1 with records := r :: st1.records },
                [.uploadOp fp, .insertOp])

/-! ## Deletion (Lifecycle Manager): `FileList.handleDelete` and the
identical `handleDelete` of the unnamed dashboard component -/

/-- The folder component of a blob path, i.e. the characters before the
first slash (paths have the shape `ownerId/generatedFileName`). -/
def folderOf (p : String) : String :=
  String.mk (p.data.takeWhile (fun c => c ≠ '/'))

/-- Modelled from the spec: the blob store's per-owner authorization.  The
storage bucket policies are not under src (only the `files` table policies
are); spec sections 4.4 and 6 scope blob operations to the owner, whose
blobs live under the folder named by the owner id, and says a non-owner
request is denied.  A remove is allowed only on a path inside the
requesting principal's folder. -/
def storageRemoveAllowed (requester p : String) : Bool :=
  folderOf p = requester

/-- The environment of one delete run: whether the (authorized) storage
remove fails, and whether the record delete fails at the backend. -/
structure DeleteEnv where
  removeFails : Bool
  dbDeleteFails : Bool
deriving DecidableEq

/-- The outcome of the `storage.remove([path])` call inside a delete. -/
inductive RemoveResult where
  | removed
  | denied
  | failedOp
deriving DecidableEq

/-- The result of `storage.remove([path])` for a given requester:
denied when the spec-modelled authorization rejects the path, failed when
the environment injects a storage failure, removed otherwise. -/
def tryRemove (requester p : String) (env : DeleteEnv) : RemoveResult :=
  if storageRemoveAllowed requester p then
    if env.removeFails then .failedOp else .removed
  else .denied

/-- The outcome surfaced by `handleDelete`. -/
inductive DeleteOutcome where
  | storageAuthError
  | storageError
  | persistenceError
  | ok
deriving DecidableEq

/-- The effect of `from('files').delete().eq('id', id)` under the
row-level-security policy "Users can delete their own files"
(`part_000` lines 34-38, `using (auth.uid() = user_id)`): only rows that
match the id filter AND are owned by the requester are deleted; a delete
that matches zero rows returns no error. -/
def rlsDeleteRecords (requester : String) (id : Nat)
    (records : List FileRecord) : List FileRecord :=
  records.filter (fun r => ¬ (r.id = id ∧ r.user_id = requester))

/-- `FileList.handleDelete` (`FileList.tsx` lines 245-280); the unnamed
dashboard component's `handleDelete` (`part_001` lines 239-273) performs
the same backend steps.  If the entry has a path, the blob is removed
first and a storage error is thrown before the record delete; only then is
the RLS-scoped record delete issued. -/
def handleDelete (requester : String) (file : FileRecord) (env : DeleteEnv)
    (st : BackendState) : DeleteOutcome × BackendState × List BackendOp :=
  match file.path with
  | some p =>
      match tryRemove requester p env with
      | .denied => (.storageAuthError, st, [.removeOp p])
      | .failedOp => (.storageError, st, [.removeOp p])
      | .removed =>
          let st1 : BackendState := { st with storage := st.storage.erase p }
          if env.dbDeleteFails then
            (.persistenceError, st1, [.removeOp p, .deleteRecordOp file.id])
          else
            (.ok, { st1 with records := rlsDeleteRecords requester file.id st1.records },
              [.removeOp p, .deleteRecordOp file.id])
  | none =>
      if env.dbDeleteFails then
        (.persistenceError, st, [.deleteRecordOp file.id])
      else
        (.ok, { st with records := rlsDeleteRecords requester file.id st.records },
          [.deleteRecordOp file.id])

/-! ## Link issuance (Link Issuer): `FileList.generateShareableLink` and
the unnamed dashboard component's `handleShareLink` -/

/-- The environment of one link-issuance run: whether the existence
lookup (`storage.list`) fails, whether `createSignedUrl` fails, and
whether the download-count update fails. -/
structure LinkEnv where
  listFails : Bool
  signFails : Bool
  updateFails : Bool
deriving DecidableEq

/-- The outcome surfaced by a link-issuance run. -/
inductive LinkOutcome where
  | noPath
  | listError
  | notFound
  | signError
  | okLink (url : String)
deriving DecidableEq

/-- The signed, time-limited URL the blob store issues for a path.  Spec
section 6 words this capability as "generation of a signed, time-limited
retrieval URL for a path": signing is per path and does not itself require
the object to exist. -/
def signedUrlFor (p : String) : String := "signed:" ++ p

/-- `from('files').update(download_count := n).eq('id', id)`: set the
download count of the matching rows to `n`. -/
def setDownloadCount (id n : Nat) (records : List FileRecord) :
    List FileRecord :=
  records.map (fun r => if r.id = id then { r with download_count := n } else r)

/-- `FileList.generateShareableLink` (`FileList.tsx` lines 282-336): no-op
without a path; first the existence lookup by path (`storage.list` on the
folder, searching the file name) — a lookup error or an empty result
throws before any signing; then `createSignedUrl(path, 3600)`; on success
the download count is set to the client's cached count plus one (an update
failure is only logged and does not invalidate the link). -/
def generateShareableLink (fileId : Nat) (path : Option String)
    (env : LinkEnv) (st : BackendState) :
    LinkOutcome × BackendState × List BackendOp :=
  match path with
  | none => (.noPath, st, [])
  | some p =>
      if env.listFails then (.listError, st, [.listOp p])
      else if st.storage.contains p then
        if env.signFails then (.signError, st, [.listOp p, .signOp p])
        else
          let cached :=
            ((st.records.find? (fun r => r.id = fileId)).map
              FileRecord.download_count).getD 0
          let st' :=
            if env.updateFails then st
            else { st with records := setDownloadCount fileId (cached + 1) st.records }
          (.okLink (signedUrlFor p), st', [.listOp p, .signOp p, .updateOp fileId])
      else (.notFound, st, [.listOp p])

/-- The unnamed dashboard component's `handleShareLink` (`part_001` lines
324-352): no-op without a path; `createSignedUrl(path, 3600)` directly,
with no existence lookup; on success the download count is set to
`file.download_count + 1` (an update failure is only logged). -/
def handleShareLink (file : FileRecord) (env : LinkEnv) (st : BackendState) :
    LinkOutcome × BackendState × List BackendOp :=
  match file.path with
  | none => (.noPath, st, [])
  | some p =>
      if env.signFails then (.signError, st, [.signOp p])
      else
        let st' :=
          if env.updateFails then st
          else { st with records :=
            setDownloadCount file.id (file.download_count + 1) st.records }
        (.okLink (signedUrlFor p), st', [.signOp p, .updateOp file.id])

/-! ## Expiry classification: `Dashboard.fetchDashboardStats` -/

/-- The row filter of the dashboard's active-transfers count
(`Dashboard.tsx` lines 31-34): `.gte('expiry_date', now)`.  Under SQL
comparison semantics `NULL >= now` is not true, so a row with a null
`expiry_date` does not pass the filter. -/
def activeGte (now : Nat) (r : FileRecord) : Bool :=
  match r.expiry_date with
  | none => false
  | some e => now ≤ e

/-- The dashboard's `activeTransfers` statistic: the count of rows passing
the `gte` filter. -/
def activeTransfers (now : Nat) (records : List FileRecord) : Nat :=
  (records.filter (activeGte now)).length

/-- The Expiry Evaluator as the spec words it (spec section 4.5), for
comparison with the code's filter: an Entry is active iff `expiryDate` is
null or `expiryDate` is at least the current time. -/
def isActiveSpec (now : Nat) (r : FileRecord) : Bool :=
  match r.expiry_date with
  | none => true
  | some e => now ≤ e

/-! ## File-size validation in the styled upload form -/

/-- `MAX_FILE_SIZE = 50 * 1024 * 1024` (the styled `FileUpload` component,
`FileUpload.tsx` line 453 of the concatenated source). -/
def MAX_FILE_SIZE : Nat := 50 * 1024 * 1024

/-- The size-limit error message of `validateFile`.  The source
interpolates the human-readable size (`formatSize`, a floating-point
rendering) into the message; that rendering is abstracted here, keeping
the fixed text. -/
def sizeLimitMessage : String := "File size exceeds 50MB limit"

/-- `validateFile` of the styled upload form: an error message when the
file's byte size strictly exceeds `MAX_FILE_SIZE`, null otherwise. -/
def validateFile (f : FileMeta) : Option String :=
  if f.size > MAX_FILE_SIZE then some sizeLimitMessage else none

/-- The part of the styled form's state that the selection handlers
mutate: the selected file and the error message (the handlers spread the
remaining fields unchanged). -/
structure UploadFormState where
  file : Option FileMeta
  error : Option String
deriving DecidableEq

/-- The styled form's `handleFileChange` / `handleDrop` selection step:
with no file in the event nothing happens; an oversized file sets the
error and resets `file` to null; a valid file is stored and the error
cleared.  The handler issues no backend operation on any path (the empty
trace). -/
def handleFileChange (st : UploadFormState) (selected : Option FileMeta) :
    UploadFormState × List BackendOp :=
  match selected with
  | none => (st, [])
  | some f =>
      match validateFile f with
      | some e => ({ st with error := some e, file := none }, [])
      | none => ({ st with file := some f, error := none }, [])

/-! ## Concrete fixtures used by witnesses and counterexamples -/

/-- A concrete authenticated principal. -/
def u0 : Principal := { id := "u1", email := "u1@example.com" }

/-- The empty backend state. -/
def st0 : BackendState := { storage := [], records := [] }

/-- A fault-free submission environment for `u0`. -/
def envOk : SubmitEnv :=
  { user := some u0, uploadFails := false, insertFails := false
  , removeFails := false, generatedName := "gen.txt", freshId := 7, now := 0 }

/-- A concrete selected file. -/
def f0 : FileMeta := { name := "a.txt", size := 10 }

/-- A submission with no file and a whitespace-only message. -/
def inpEmpty : SubmitInput :=
  { file := none, message := "   ", recipientEmail := "", expiryDays := 7 }

/-- A submission with no file and a non-blank message. -/
def inpMsgOnly : SubmitInput :=
  { file := none, message := " hello ", recipientEmail := "", expiryDays := 0 }

/-- A submission carrying a file and a message. -/
def inpFile : SubmitInput :=
  { file := some f0, message := "hi", recipientEmail := "", expiryDays := 7 }

/-! ## Claim C1: entry validation -/

/-- Claim C1: a submission with a null payload and a message blank after
trimming fails validation with no side effects (state unchanged, no
backend operation issued); every other submission passes validation. -/
theorem submit_validation (inp : SubmitInput) (env : SubmitEnv)
    (st : BackendState) :
    (inp.file = none ∧ jsTrim inp.message = "" →
        handleSubmit inp env st = (.validationError, st, [])) ∧
    ((inp.file ≠ none ∨ jsTrim inp.message ≠ "") →
        (handleSubmit inp env st).1 ≠ .validationError) := by
  constructor
  · rintro ⟨hf, hm⟩
    simp [handleSubmit, hf, hm]
  · intro h
    have hg : ¬ (inp.file = none ∧ jsTrim inp.message = "") := by
      rcases h with h | h
      · exact fun hc => h hc.1
      · exact fun hc => h hc.2
    rcases hu : env.user with _ | u
    · simp [handleSubmit, hg, hu]
    · rcases hf : inp.file with _ | f
      · have hm : jsTrim inp.message ≠ "" := fun hm => hg ⟨hf, hm⟩
        by_cases hi : env.insertFails <;>
          simp [handleSubmit, hg, hu, hf, hi, hm]
      · by_cases hup : env.uploadFails
        · simp [handleSubmit, hg, hu, hf, hup]
        · by_cases hi : env.insertFails
          · by_cases hr : env.removeFails <;>
              simp [handleSubmit, hg, hu, hf, hup, hi, hr]
          · simp [handleSubmit, hg, hu, hf, hup, hi]

/-- Claim C1 witness: the blank submission `inpEmpty` is rejected with the
state untouched and an empty trace, while the message-bearing `inpMsgOnly`
passes validation. -/
theorem submit_validation_witness :
    handleSubmit inpEmpty envOk st0 = (.validationError, st0, []) ∧
    (handleSubmit inpMsgOnly envOk st0).1 ≠ .validationError :=
  ⟨(submit_validation inpEmpty envOk st0).1 ⟨rfl, rfl⟩,
   (submit_validation inpMsgOnly envOk st0).2 (Or.inr (by decide))⟩

/-! ## Claim C2: compensating blob delete -/

/-- An environment in which the record insert fails and the compensating
remove also fails. -/
def envDoubleFault : SubmitEnv :=
  { envOk with insertFails := true, removeFails := true }

/-- Claim C2 counterexample: the blob upload succeeds and the record write
fails, yet the stored blob still exists afterward — the source discards
the result of the compensating `storage.remove`, so when that remove fails
the orphaned blob remains and the visible state is not as if the operation
never started. -/
theorem submit_orphan_blob_counterexample :
    (handleSubmit inpFile envDoubleFault st0).1 = .persistenceError ∧
    (handleSubmit inpFile envDoubleFault st0).2.1.storage = ["u1/gen.txt"] := by
  decide

/-- Claim C2 amended: when the blob upload succeeds, the record write
fails and the compensating delete succeeds, the error is surfaced after
the compensating remove was issued (the trace ends with the remove) and
the final state equals the initial state — no orphaned blob, no record. -/
theorem submit_compensating_delete (inp : SubmitInput) (f : FileMeta)
    (u : Principal) (env : SubmitEnv) (st : BackendState)
    (hf : inp.file = some f) (hu : env.user = some u)
    (hup : env.uploadFails = false) (hins : env.insertFails = true)
    (hrem : env.removeFails = false) :
    handleSubmit inp env st =
      (.persistenceError, st,
        [.uploadOp (submitPath u env), .insertOp,
         .removeOp (submitPath u env)]) := by
  have hg : ¬ (inp.file = none ∧ jsTrim inp.message = "") := by
    intro hc
    rw [hf] at hc
    exact Option.noConfusion hc.1
  simp [handleSubmit, hg, hu, hf, hup, hins, hrem, List.erase_cons_head]

/-- An environment in which only the record insert fails. -/
def envInsFail : SubmitEnv := { envOk with insertFails := true }

/-- Claim C2 witness: concrete run of the amended claim — the upload
succeeds, the insert fails, the compensating remove succeeds, and the
state is exactly the initial one. -/
theorem submit_compensating_delete_witness :
    handleSubmit inpFile envInsFail st0 =
      (.persistenceError, st0,
        [.uploadOp "u1/gen.txt", .insertOp, .removeOp "u1/gen.txt"]) := by
  have h := submit_compensating_delete inpFile f0 u0 envInsFail st0
    rfl rfl rfl rfl rfl
  exact h

/-! ## Inversion of a successful submission (shared by C6, C7, C10) -/

/-- Inverting a successful `handleSubmit`: the run had an authenticated
user and the created row is exactly `builtRecord`, with the path present
iff a file was submitted. -/
theorem handleSubmit_created_inv (inp : SubmitInput) (env : SubmitEnv)
    (st : BackendState) (r : FileRecord) (st' : BackendState)
    (tr : List BackendOp)
    (h : handleSubmit inp env st = (.created r, st', tr)) :
    ∃ u, env.user = some u ∧
      r = builtRecord inp u env (inp.file.map (fun _ => submitPath u env)) := by
  by_cases hg : inp.file = none ∧ jsTrim inp.message = ""
  · simp [handleSubmit, hg] at h
  · rcases hu : env.user with _ | u
    · simp [handleSubmit, hg, hu] at h
    · refine ⟨u, rfl, ?_⟩
      rcases hf : inp.file with _ | f
      · have hm : jsTrim inp.message ≠ "" := fun hm => hg ⟨hf, hm⟩
        by_cases hi : env.insertFails
        · simp [handleSubmit, hg, hu, hf, hi, hm] at h
        · simp [handleSubmit, hg, hu, hf, hi, hm] at h
          simp [hf, h.1.symm]
      · by_cases hup : env.uploadFails
        · simp [handleSubmit, hg, hu, hf, hup] at h
        · by_cases hi : env.insertFails
          · by_cases hr : env.removeFails <;>
              simp [handleSubmit, hg, hu, hf, hup, hi, hr] at h
          · simp [handleSubmit, hg, hu, hf, hup, hi] at h
            simp [hf, h.1.symm]

/-! ## Claim C3: blob delete before record delete -/

/-- Claim C3: for a file-bearing entry, the delete workflow attempts the
blob delete first (the trace starts with the remove); if the blob delete
does not succeed, the workflow aborts with the state untouched and the
record delete never issued; the record delete is issued, strictly after
the remove, only when the blob delete succeeded; and the records change
only after a successful blob delete. -/
theorem delete_blob_first (requester : String) (file : FileRecord)
    (p : String) (env : DeleteEnv) (st : BackendState)
    (hp : file.path = some p) :
    (handleDelete requester file env st).2.2.head? = some (.removeOp p) ∧
    (tryRemove requester p env ≠ .removed →
      (handleDelete requester file env st).2.1 = st ∧
      (handleDelete requester file env st).1 ≠ .ok ∧
      (handleDelete requester file env st).2.2 = [.removeOp p]) ∧
    (tryRemove requester p env = .removed →
      (handleDelete requester file env st).2.2 =
        [.removeOp p, .deleteRecordOp file.id]) ∧
    ((handleDelete requester file env st).2.1.records ≠ st.records →
      tryRemove requester p env = .removed) := by
  rcases hr : tryRemove requester p env with _ | _ | _
  · by_cases hdb : env.dbDeleteFails <;>
      simp [handleDelete, hp, hr, hdb]
  · simp [handleDelete, hp, hr]
  · simp [handleDelete, hp, hr]

/-- A file-bearing record owned by `u1`. -/
def recA : FileRecord :=
  { id := 3, name := "a.bin", path := some "u1/a.bin"
  , recipient_email := "u1@example.com", expiry_date := none
  , user_id := "u1", download_count := 0, view_count := 0
  , message := "", type := "file_and_message" }

/-- A backend state holding `recA` and its blob. -/
def stA : BackendState := { storage := ["u1/a.bin"], records := [recA] }

/-- A delete environment in which the storage remove fails. -/
def envRemFail : DeleteEnv := { removeFails := true, dbDeleteFails := false }

/-- Claim C3 witness: when the owner deletes `recA` and the blob remove
fails, the workflow aborts with the state (record included) untouched. -/
theorem delete_blob_first_witness :
    (handleDelete "u1" recA envRemFail stA).2.1 = stA ∧
    (handleDelete "u1" recA envRemFail stA).1 ≠ .ok := by
  have h := delete_blob_first "u1" recA "u1/a.bin" envRemFail stA rfl
  exact ⟨(h.2.1 (by decide)).1, (h.2.1 (by decide)).2.1⟩

/-! ## Claim C4: link issuance for a missing blob -/

/-- A fault-free link-issuance environment. -/
def envLink : LinkEnv :=
  { listFails := false, signFails := false, updateFails := false }

/-- A file-bearing record owned by `bob` with three downloads. -/
def recB : FileRecord :=
  { id := 7, name := "x.txt", path := some "bob/x.txt"
  , recipient_email := "bob@x.com", expiry_date := none
  , user_id := "bob", download_count := 3, view_count := 0
  , message := "", type := "file_and_message" }

/-- A backend state in which `recB`'s blob is absent from storage. -/
def stMissing : BackendState := { storage := [], records := [recB] }

/-- Claim C4 counterexample: the dashboard variant `handleShareLink`
issues a link for an entry whose blob is absent from the store without any
existence lookup: its whole trace is the sign and the counter update (no
list operation), the outcome is a signed URL, and the download count is
incremented — the spec's blob-store capability signs a path without
requiring the object to exist. -/
theorem share_link_no_existence_check_counterexample :
    (handleShareLink recB envLink stMissing).2.2 =
      [.signOp "bob/x.txt", .updateOp 7] ∧
    (handleShareLink recB envLink stMissing).1 = .okLink "signed:bob/x.txt" ∧
    (handleShareLink recB envLink stMissing).2.1.records =
      [{ recB with download_count := 4 }] := by
  decide

/-- Claim C4 amended: in the list view's `generateShareableLink`, a
request on an entry whose path is absent from storage performs the
existence lookup, fails with the not-found outcome, returns no signed URL,
and leaves the state — download count included — unchanged. -/
theorem issue_link_missing_blob (fileId : Nat) (p : String) (env : LinkEnv)
    (st : BackendState) (habs : st.storage.contains p = false)
    (hl : env.listFails = false) :
    generateShareableLink fileId (some p) env st =
      (.notFound, st, [.listOp p]) := by
  have hmem : p ∉ st.storage := by simpa using habs
  simp [generateShareableLink, hl, hmem]

/-- Claim C4 witness: concrete run of the amended claim on `recB` with its
blob missing from storage. -/
theorem issue_link_missing_blob_witness :
    generateShareableLink 7 (some "bob/x.txt") envLink stMissing =
      (.notFound, stMissing, [.listOp "bob/x.txt"]) := by
  have h := issue_link_missing_blob 7 "bob/x.txt" envLink stMissing rfl rfl
  exact h

/-! ## Claim C5: expiry classification of never-expiring entries -/

/-- A record whose `expiry_date` is null ("never expires"). -/
def recNullExpiry : FileRecord :=
  { id := 9, name := "n.txt", path := some "u1/n.txt"
  , recipient_email := "u1@example.com", expiry_date := none
  , user_id := "u1", download_count := 0, view_count := 0
  , message := "", type := "file_and_message" }

/-- Claim C5 (code bug), the code evaluated at the failing input: a record
with a null `expiry_date` does not pass the dashboard's `gte` filter and
is excluded from the `activeTransfers` count, while the spec's Expiry
Evaluator classifies it active; a record with a non-null future
`expiry_date` is counted by both. -/
theorem dashboard_null_expiry_excluded :
    activeGte 1000 recNullExpiry = false ∧
    isActiveSpec 1000 recNullExpiry = true ∧
    activeTransfers 1000 [recNullExpiry] = 0 ∧
    activeTransfers 1000 [{ recNullExpiry with expiry_date := some 2000 }] = 1 := by
  decide

/-! ## Claim C6: kind derived from payload presence -/

/-- Claim C6: every row created by a successful submission has its kind
derived from payload presence — with no file the row has a null path and
type `message_only`; with a file the row has a non-null path and type
`file_and_message`, regardless of message content. -/
theorem created_kind_matches_payload (inp : SubmitInput) (env : SubmitEnv)
    (st : BackendState) (r : FileRecord) (st' : BackendState)
    (tr : List BackendOp)
    (h : handleSubmit inp env st = (.created r, st', tr)) :
    (inp.file = none → r.path = none ∧ r.type = "message_only") ∧
    (∀ f, inp.file = some f →
      (∃ q, r.path = some q) ∧ r.type = "file_and_message") := by
  obtain ⟨u, hu, hr⟩ := handleSubmit_created_inv inp env st r st' tr h
  subst hr
  constructor
  · intro hf
    simp [builtRecord, hf]
  · intro f hf
    exact ⟨⟨submitPath u env, by simp [builtRecord, hf]⟩,
           by simp [builtRecord, hf]⟩

/-- The row created by the message-only submission `inpMsgOnly`. -/
def rMsgOnly : FileRecord := builtRecord inpMsgOnly u0 envOk none

/-- The row created by the file-bearing submission `inpFile`. -/
def rFile : FileRecord :=
  builtRecord inpFile u0 envOk (some (submitPath u0 envOk))

/-- Claim C6 witness: concrete successful runs — the message-only
submission creates a row with a null path and type `message_only`, and the
file-bearing submission a row with a non-null path and type
`file_and_message`. -/
theorem created_kind_matches_payload_witness :
    (rMsgOnly.path = none ∧ rMsgOnly.type = "message_only") ∧
    ((∃ q, rFile.path = some q) ∧ rFile.type = "file_and_message") :=
  ⟨(created_kind_matches_payload inpMsgOnly envOk st0 rMsgOnly
      { storage := [], records := [rMsgOnly] } [.insertOp] rfl).1 rfl,
   (created_kind_matches_payload inpFile envOk st0 rFile
      { storage := ["u1/gen.txt"], records := [rFile] }
      [.uploadOp "u1/gen.txt", .insertOp] rfl).2 f0 rfl⟩

/-! ## Claim C7: counters start at zero -/

/-- Claim C7: every row created by a successful submission has a download
count of 0 (explicit in the insert) and a view count of 0 (the
spec-modelled column default, since the insert does not name the
column). -/
theorem created_counters_zero (inp : SubmitInput) (env : SubmitEnv)
    (st : BackendState) (r : FileRecord) (st' : BackendState)
    (tr : List BackendOp)
    (h : handleSubmit inp env st = (.created r, st', tr)) :
    r.download_count = 0 ∧ r.view_count = 0 := by
  obtain ⟨u, hu, hr⟩ := handleSubmit_created_inv inp env st r st' tr h
  subst hr
  exact ⟨rfl, rfl⟩

/-- Claim C7 witness: the concrete row created from `inpMsgOnly` has both
counters at zero. -/
theorem created_counters_zero_witness :
    rMsgOnly.download_count = 0 ∧ rMsgOnly.view_count = 0 :=
  created_counters_zero inpMsgOnly envOk st0 rMsgOnly
    { storage := [], records := [rMsgOnly] } [.insertOp] rfl

/-! ## Claim C10: the stored message is the trimmed input -/

/-- Claim C10: every row created by a successful submission stores the
input message with leading and trailing whitespace removed. -/
theorem created_message_trimmed (inp : SubmitInput) (env : SubmitEnv)
    (st : BackendState) (r : FileRecord) (st' : BackendState)
    (tr : List BackendOp)
    (h : handleSubmit inp env st = (.created r, st', tr)) :
    r.message = jsTrim inp.message := by
  obtain ⟨u, hu, hr⟩ := handleSubmit_created_inv inp env st r st' tr h
  subst hr
  rfl

/-- A file-bearing submission whose message is whitespace only. -/
def inpWs : SubmitInput :=
  { file := some f0, message := "  \t ", recipientEmail := ""
  , expiryDays := 7 }

/-- The row created by the whitespace-message submission `inpWs`. -/
def rWs : FileRecord := builtRecord inpWs u0 envOk (some (submitPath u0 envOk))

/-- Claim C10 witness: the file-bearing submission with a whitespace-only
message stores the empty message. -/
theorem created_message_trimmed_witness : rWs.message = "" :=
  (created_message_trimmed inpWs envOk st0 rWs
    { storage := ["u1/gen.txt"], records := [rWs] }
    [.uploadOp "u1/gen.txt", .insertOp] rfl).trans rfl

/-! ## Claim C8: delete requested by a non-owner -/

/-- A message-only record owned by `bob`. -/
def recMsgB : FileRecord :=
  { id := 5, name := "Message Only", path := none
  , recipient_email := "bob@x.com", expiry_date := none
  , user_id := "bob", download_count := 0, view_count := 0
  , message := "hi", type := "message_only" }

/-- A backend state holding only `recMsgB`. -/
def stMsgB : BackendState := { storage := [], records := [recMsgB] }

/-- A fault-free delete environment. -/
def envDel : DeleteEnv := { removeFails := false, dbDeleteFails := false }

/-- Claim C8 counterexample: `alice` deletes the message-only entry owned
by `bob` — the RLS-scoped record delete matches zero rows, so the record
survives, but the operation surfaces no error at all (outcome ok) rather
than failing with an AuthorizationError. -/
theorem nonowner_delete_silent_counterexample :
    (handleDelete "alice" recMsgB envDel stMsgB).1 = .ok ∧
    (handleDelete "alice" recMsgB envDel stMsgB).2.1.records = [recMsgB] := by
  decide

/-- Claim C8 amended: a delete requested by a principal who does not own
the target entry changes no durable state — the RLS-scoped record delete
matches zero rows, and for a file-bearing entry the (spec-modelled)
owner-scoped storage policy rejects the blob delete before the record
delete is reached — but the operation does not fail with an
AuthorizationError in the message-only case: there the record delete
silently affects zero rows and the workflow reports success.  The
hypotheses say the target's blob path lives in the owner's folder and
the target's row id identifies its owner. -/
theorem nonowner_delete_no_state_change (requester : String)
    (file : FileRecord) (env : DeleteEnv) (st : BackendState)
    (hown : file.user_id ≠ requester)
    (hpath : ∀ p, file.path = some p → folderOf p = file.user_id)
    (hid : ∀ r ∈ st.records, r.id = file.id → r.user_id = file.user_id) :
    (handleDelete requester file env st).2.1 = st ∧
    (∀ p, file.path = some p →
      (handleDelete requester file env st).1 = .storageAuthError) ∧
    (file.path = none → env.dbDeleteFails = false →
      (handleDelete requester file env st).1 = .ok) := by
  have hfilter : rlsDeleteRecords requester file.id st.records = st.records := by
    unfold rlsDeleteRecords
    rw [List.filter_eq_self]
    intro r hr
    simp only [decide_eq_true_eq]
    rintro ⟨h1, h2⟩
    exact hown ((hid r hr h1) ▸ h2)
  rcases hp : file.path with _ | p
  · by_cases hdb : env.dbDeleteFails <;>
      simp [handleDelete, hp, hdb, hfilter]
  · have hdeny : storageRemoveAllowed requester p = false := by
      have h1 : folderOf p = file.user_id := hpath p hp
      simp only [storageRemoveAllowed, h1, decide_eq_false_iff_not]
      exact hown
    have htr : tryRemove requester p env = .denied := by
      simp [tryRemove, hdeny]
    simp [handleDelete, hp, htr]

/-- Claim C8 witness: `alice` deletes the file-bearing entry `recB` owned
by `bob` — the state is unchanged and the workflow aborts on the
storage-layer denial. -/
theorem nonowner_delete_no_state_change_witness :
    (handleDelete "alice" recB envDel stMissing).2.1 = stMissing ∧
    (handleDelete "alice" recB envDel stMissing).1 = .storageAuthError := by
  have h := nonowner_delete_no_state_change "alice" recB envDel stMissing
    (by decide)
    (by
      intro p hp
      injection hp with h1
      subst h1
      decide)
    (by decide)
  exact ⟨h.1, h.2.1 "bob/x.txt" rfl⟩

/-! ## Claim C9: the 50 MB size limit in the styled form -/

/-- Claim C9: a selected or dropped file whose byte size strictly exceeds
50 MB is rejected — the size-limit error is set, the form's file stays
null, the selection handler issues no backend operation, and any
submission from the resulting form state (its file being null) never
issues an upload. -/
theorem oversize_file_rejected (st : UploadFormState) (f : FileMeta)
    (h : f.size > 50 * 1024 * 1024) :
    (handleFileChange st (some f)).1.file = none ∧
    (handleFileChange st (some f)).1.error = some sizeLimitMessage ∧
    (handleFileChange st (some f)).2 = [] ∧
    (∀ inp env bst p, inp.file = (handleFileChange st (some f)).1.file →
      BackendOp.uploadOp p ∉ (handleSubmit inp env bst).2.2) := by
  have hv : validateFile f = some sizeLimitMessage := by
    unfold validateFile MAX_FILE_SIZE
    rw [if_pos h]
  refine ⟨by simp [handleFileChange, hv], by simp [handleFileChange, hv],
    by simp [handleFileChange, hv], ?_⟩
  intro inp env bst p hfe
  have hfile : inp.file = none := by
    rw [hfe]
    simp [handleFileChange, hv]
  by_cases hg : inp.file = none ∧ jsTrim inp.message = ""
  · simp [handleSubmit, hg]
  · rcases hu : env.user with _ | u
    · simp [handleSubmit, hg, hu]
    · have hm : jsTrim inp.message ≠ "" := fun hm => hg ⟨hfile, hm⟩
      by_cases hi : env.insertFails <;>
        simp [handleSubmit, hg, hu, hfile, hi, hm]

/-- A file one byte over the 50 MB limit. -/
def fBig : FileMeta := { name := "big.bin", size := 50 * 1024 * 1024 + 1 }

/-- The pristine styled-form selection state. -/
def formSt0 : UploadFormState := { file := none, error := none }

/-- Claim C9 witness: the concrete oversized file `fBig` is rejected and
the form file stays null. -/
theorem oversize_file_rejected_witness :
    (handleFileChange formSt0 (some fBig)).1.file = none ∧
    (handleFileChange formSt0 (some fBig)).1.error = some sizeLimitMessage := by
  have h := oversize_file_rejected formSt0 fBig (by decide)
  exact ⟨h.1, h.2.1⟩

end FileTransfer
